import Mathlib

/-!
Shallow embedding of the natural-language command interpreter
(`parseVoiceCommand` and its helpers) from `src/utils/nlpProcessor.ts`.
Text is modelled as `List Char`; the TypeScript string methods
(`includes`, `match` with the specific regular expressions used,
`split(/\s+/)`, `trim`, `toLowerCase`) are translated as executable
functions on character lists with the same leftmost-match /
greedy-backtracking semantics as the JavaScript regex engine on the
specific patterns appearing in the source.  JavaScript numbers are
modelled as rationals (the scores involved are small decimal fractions
and all comparisons in reach of the claims are robustly away from
floating-point rounding).  `Date` values are modelled abstractly:
`new Date()` minus a day count becomes `DateVal.relToNow days`, and
`new Date(string)` becomes `DateVal.ofParsedString`.
-/

/-- Text as a list of characters (a TypeScript string). -/
abbrev Text := List Char

/-- Whitespace test modelling the JavaScript `\s` class and `trim`
(restricted to the ASCII whitespace characters; the claims only involve
ASCII text). -/
def isWsChar (c : Char) : Bool :=
  c = ' ' || c = '\t' || c = '\n' || c = '\r' || c = '\x0b' || c = '\x0c'

def isDigitChar (c : Char) : Bool := '0' ≤ c && c ≤ '9'

def isLowerChar (c : Char) : Bool := 'a' ≤ c && c ≤ 'z'

/-- JavaScript `String.prototype.trim` on both ends. -/
def trimText (l : Text) : Text :=
  ((l.dropWhile isWsChar).reverse.dropWhile isWsChar).reverse

/-- The normalization `text.toLowerCase().trim()` at the top of
`parseVoiceCommand` (ASCII lowering). -/
def normalizeText (t : String) : Text := trimText (t.toList.map Char.toLower)

/-- Semantics of `a || b` on JavaScript regex-match results: first
non-null wins.  Also the backtracking combinator for ordered
alternatives inside a pattern. -/
def orO {α : Type} : Option α → Option α → Option α
  | some a, _ => some a
  | none, b => b

/-- Scan all start positions left to right (including the position at
the end of the string) and return the first position where the matcher
succeeds — the leftmost-match rule of `String.prototype.match`. -/
def scanText {α : Type} (m : Text → Option α) : Text → Option α
  | [] => m []
  | c :: rest => orO (m (c :: rest)) (scanText m rest)

/-- Greedy `\s+` followed by a continuation, with backtracking: the run
of consumed whitespace is maximal first, shrinking one character at a
time (never below one) when the continuation fails. -/
def wsThen {α : Type} (k : Text → Option α) : Text → Option α
  | [] => none
  | c :: rest =>
    if isWsChar c then
      orO (match rest with
           | d :: _ => if isWsChar d then wsThen k rest else none
           | [] => none)
          (k rest)
    else none

/-- Non-greedy `(cls+?)` followed by `(?:\s|$)`: the shortest nonempty
run of class characters whose following character is whitespace (or the
end of the string). -/
def nongreedyCapture (cls : Char → Bool) : Text → Option Text
  | [] => none
  | c :: rest =>
    if cls c then
      match rest with
      | [] => some [c]
      | d :: _ =>
        if isWsChar d then some [c]
        else (nongreedyCapture cls rest).map (fun g => c :: g)
    else none

/-- Greedy `(cls+)` at the end of a pattern: the maximal nonempty run of
class characters. -/
def greedyCapture (cls : Char → Bool) : Text → Option Text
  | [] => none
  | c :: rest => if cls c then some (c :: rest.takeWhile cls) else none

/-- JavaScript `text.includes(needle)`: `needle` occurs as a contiguous
substring of `text`. -/
def textIncludes (l : Text) (needle : Text) : Bool :=
  match l with
  | [] => needle.isPrefixOf []
  | _ :: rest => needle.isPrefixOf l || textIncludes rest needle

/-! ## Data model (`ParsedCommand` and friends) -/

inductive CommandIntent where
  | search_cases
  | filter_cases
  | temporal_query
  | location_query
  | suspect_query
  | crime_type_query
  | unknown
deriving DecidableEq, Repr

/-- A JavaScript `Date` as produced by the interpreter: either "now
minus `daysAgo` days" (from `new Date()` and `setDate` arithmetic) or a
date parsed from a matched literal string. -/
inductive DateVal where
  | relToNow (daysAgo : Nat)
  | ofParsedString (s : String)
deriving DecidableEq, Repr

structure TimeRange where
  start : Option DateVal := none
  «end» : Option DateVal := none
  relative : Option String := none
deriving DecidableEq, Repr

structure CommandEntities where
  crimeType : Option (List String) := none
  location : Option String := none
  timeRange : Option TimeRange := none
  suspect : Option String := none
  caseId : Option String := none
  keywords : Option (List String) := none
deriving DecidableEq, Repr

structure ParsedCommand where
  intent : CommandIntent
  entities : CommandEntities
  confidence : ℚ
  rawText : String
  needsClarification : Bool
  clarificationQuestion : Option String
deriving DecidableEq, Repr

/-! ## Static vocabulary tables -/

def CRIME_TYPES : List String :=
  ["armed robbery", "robbery", "burglary", "theft", "assault", "homicide",
   "murder", "fraud", "arson", "kidnapping", "vandalism", "drug trafficking",
   "weapons violation"]

structure TemporalValue where
  days : Nat
  offset : Option Nat := none
deriving DecidableEq, Repr

/-- The `TEMPORAL_KEYWORDS` table in object-literal insertion order (all
keys are non-numeric strings, so `Object.entries` preserves this order). -/
def TEMPORAL_KEYWORDS : List (String × TemporalValue) :=
  [("today", ⟨0, none⟩), ("yesterday", ⟨1, none⟩), ("this week", ⟨7, none⟩),
   ("last week", ⟨14, some 7⟩), ("this month", ⟨30, none⟩),
   ("last month", ⟨60, some 30⟩), ("this year", ⟨365, none⟩)]

/-! ## Intent classification -/

def containsCrimeType (l : Text) : Bool :=
  CRIME_TYPES.any (fun ty => textIncludes l ty.toList)

def containsLocation (l : Text) : Bool :=
  textIncludes l "in ".toList || textIncludes l "near ".toList ||
  textIncludes l "at ".toList || textIncludes l "around ".toList ||
  textIncludes l "sector".toList || textIncludes l "district".toList

def containsTimeReference (l : Text) : Bool :=
  TEMPORAL_KEYWORDS.any (fun kv => textIncludes l kv.1.toList)

def determineIntent (l : Text) : CommandIntent :=
  if textIncludes l "show".toList || textIncludes l "find".toList ||
     textIncludes l "search".toList || textIncludes l "get".toList then
    if containsCrimeType l then .crime_type_query
    else if containsLocation l then .location_query
    else if containsTimeReference l then .temporal_query
    else .search_cases
  else if textIncludes l "filter".toList || textIncludes l "narrow".toList ||
          textIncludes l "matching".toList then .filter_cases
  else if containsTimeReference l then .temporal_query
  else if containsLocation l then .location_query
  else if textIncludes l "suspect".toList || textIncludes l "perpetrator".toList then
    .suspect_query
  else .unknown

/-! ## Location extraction
Regex 1: `(?:in|near|at|around)\s+([a-z0-9\s]+?)(?:\s|$)`
Regex 2: `sector\s+(\d+)`
Regex 3: `district\s+([a-z0-9\s]+)`
(the `/i` flags are moot since the text is already lowercased). -/

def isLocChar (c : Char) : Bool := isLowerChar c || isDigitChar c || isWsChar c

/-- Try one preposition alternative at the current position. -/
def tryPrep (p : Text) (l : Text) : Option Text :=
  if p.isPrefixOf l then wsThen (nongreedyCapture isLocChar) (l.drop p.length)
  else none

def locMatchAt (l : Text) : Option Text :=
  orO (tryPrep "in".toList l)
    (orO (tryPrep "near".toList l)
      (orO (tryPrep "at".toList l) (tryPrep "around".toList l)))

def locSearch : Text → Option Text := scanText locMatchAt

def sectorMatchAt (l : Text) : Option Text :=
  if "sector".toList.isPrefixOf l then
    wsThen (greedyCapture isDigitChar) (l.drop 6)
  else none

def sectorSearch : Text → Option Text := scanText sectorMatchAt

def districtMatchAt (l : Text) : Option Text :=
  if "district".toList.isPrefixOf l then
    wsThen (greedyCapture isLocChar) (l.drop 8)
  else none

def districtSearch : Text → Option Text := scanText districtMatchAt

/-- Model of `text.match(r1) || text.match(r2) || text.match(r3)`, then
`match[1].trim()`. -/
def extractLocation (l : Text) : Option Text :=
  (orO (locSearch l) (orO (sectorSearch l) (districtSearch l))).map trimText

/-! ## Time-range extraction -/

/-- The `for … of Object.entries(TEMPORAL_KEYWORDS)` loop with early
return on `text.includes(keyword)`. -/
def findTemporal : List (String × TemporalValue) → Text → Option (String × TemporalValue)
  | [], _ => none
  | kv :: rest, l => if textIncludes l kv.1.toList then some kv else findTemporal rest l

/-- Leftmost match of `(\d{1,2}\/\d{1,2}\/\d{4})`, returning the matched
characters.  `\d{1,2}` is greedy (two digits preferred) with
backtracking. -/
def matchD12 (l : Text) (k : Text → Option Text) : Option Text :=
  match l with
  | [] => none
  | c1 :: rest1 =>
    if isDigitChar c1 then
      orO (match rest1 with
           | c2 :: rest2 =>
             if isDigitChar c2 then (k rest2).map (fun m => c1 :: c2 :: m)
             else none
           | [] => none)
          ((k rest1).map (fun m => c1 :: m))
    else none

def matchSlash (l : Text) (k : Text → Option Text) : Option Text :=
  match l with
  | '/' :: rest => (k rest).map (fun m => '/' :: m)
  | _ => none

def matchD4 (l : Text) : Option Text :=
  match l with
  | a :: b :: c :: d :: _ =>
    if isDigitChar a && isDigitChar b && isDigitChar c && isDigitChar d then
      some [a, b, c, d]
    else none
  | _ => none

def dateMatchAt (l : Text) : Option Text :=
  matchD12 l (fun r1 => matchSlash r1 (fun r2 =>
    matchD12 r2 (fun r3 => matchSlash r3 matchD4)))

def dateSearch : Text → Option Text := scanText dateMatchAt

def extractTimeRange (l : Text) : Option TimeRange :=
  match findTemporal TEMPORAL_KEYWORDS l with
  | some (keyword, value) =>
    some { start := some (.relToNow value.days),
           «end» := some (.relToNow (value.offset.getD 0)),
           relative := some keyword }
  | none =>
    match dateSearch l with
    | some d =>
      some { start := some (.ofParsedString (String.mk d)),
             «end» := some (.ofParsedString (String.mk d)),
             relative := none }
    | none => none

/-! ## Suspect and case-id extraction
Suspect: `suspect(?:\s+named)?\s+([a-z\s]+?)(?:\s|$)`
Case id: `case\s+(?:id\s+)?([a-z0-9-]+)` -/

def isSuspectChar (c : Char) : Bool := isLowerChar c || isWsChar c

def suspectTail (l : Text) : Option Text :=
  orO
    (wsThen (fun r =>
      if "named".toList.isPrefixOf r then
        wsThen (nongreedyCapture isSuspectChar) (r.drop 5)
      else none) l)
    (wsThen (nongreedyCapture isSuspectChar) l)

def suspectMatchAt (l : Text) : Option Text :=
  if "suspect".toList.isPrefixOf l then suspectTail (l.drop 7) else none

def suspectSearch : Text → Option Text := scanText suspectMatchAt

def isCaseIdChar (c : Char) : Bool := isLowerChar c || isDigitChar c || c = '-'

def caseTail (l : Text) : Option Text :=
  wsThen (fun r =>
    orO
      (if "id".toList.isPrefixOf r then
        wsThen (greedyCapture isCaseIdChar) (r.drop 2)
       else none)
      (greedyCapture isCaseIdChar r)) l

def caseMatchAt (l : Text) : Option Text :=
  if "case".toList.isPrefixOf l then caseTail (l.drop 4) else none

def caseSearch : Text → Option Text := scanText caseMatchAt

/-! ## Keyword extraction -/

def STOP_WORDS : List Text :=
  ["the".toList, "a".toList, "an".toList, "and".toList, "or".toList,
   "but".toList, "in".toList, "on".toList, "at".toList, "to".toList,
   "for".toList, "of".toList, "with".toList, "by".toList, "from".toList,
   "show".toList, "find".toList, "search".toList, "get".toList,
   "me".toList, "all".toList]

/-- Model of `text.split(/\s+/)`: pieces between maximal whitespace
runs, with JavaScript's empty pieces at the boundary (`"" → [""]`, a
leading or trailing run yields an empty piece).  A whitespace character
merges into the run started by a following whitespace character;
otherwise it closes a piece. -/
def splitWs : Text → List Text
  | [] => [[]]
  | c :: rest =>
    if isWsChar c then
      match rest with
      | [] => [[], []]
      | d :: _ => if isWsChar d then splitWs rest else [] :: splitWs rest
    else
      match splitWs rest with
      | [] => [[c]]
      | p :: ps => (c :: p) :: ps

/-- Model of `word.toLowerCase().replace(/[^a-z0-9]/g, \x27\x27)`. -/
def cleanWord (w : Text) : Text :=
  (w.map Char.toLower).filter (fun c => isLowerChar c || isDigitChar c)

/-- Model of `[...new Set(words)]`: deduplicate keeping first-occurrence order. -/
def dedupFirst : List Text → List Text → List Text
  | [], _ => []
  | w :: rest, seen =>
    if seen.contains w then dedupFirst rest seen
    else w :: dedupFirst rest (w :: seen)

def extractKeywords (l : Text) : List Text :=
  dedupFirst
    (((splitWs l).map cleanWord).filter
      (fun w => w.length > 2 && !STOP_WORDS.contains w))
    []

/-! ## Entity extraction -/

def extractEntities (l : Text) : CommandEntities :=
  let crimeTypes := CRIME_TYPES.filter (fun ty => textIncludes l ty.toList)
  let keywords := extractKeywords l
  { crimeType := if crimeTypes.length > 0 then some crimeTypes else none,
    location := (extractLocation l).map String.mk,
    timeRange := extractTimeRange l,
    suspect := (suspectSearch l).map (fun g => String.mk (trimText g)),
    caseId := (caseSearch l).map String.mk,
    keywords := if keywords.length > 0 then some (keywords.map String.mk) else none }

/-! ## Confidence and clarification -/

/-- Model of `Object.keys(entities).length`: a key is present exactly when the
corresponding extraction succeeded. -/
def entityCount (e : CommandEntities) : Nat :=
  (if e.crimeType.isSome then 1 else 0) + (if e.location.isSome then 1 else 0) +
  (if e.timeRange.isSome then 1 else 0) + (if e.suspect.isSome then 1 else 0) +
  (if e.caseId.isSome then 1 else 0) + (if e.keywords.isSome then 1 else 0)

/-- Model of `Math.min` on the (non-NaN) numbers involved. -/
def jsMin (a b : ℚ) : ℚ := if a ≤ b then a else b

def calculateConfidence (intent : CommandIntent) (e : CommandEntities) (l : Text) : ℚ :=
  let s1 : ℚ := if intent ≠ CommandIntent.unknown then 3/10 else 0
  let s2 : ℚ := jsMin ((entityCount e : ℚ) * (2/10)) (4/10)
  let wordCount := (splitWs l).length
  let s3 : ℚ := (if wordCount ≥ 4 then 2/10 else 0) + (if wordCount ≥ 8 then 1/10 else 0)
  jsMin (s1 + s2 + s3) 1

/-- JavaScript truthiness of an optional string (`undefined` and `""`
are falsy). -/
def truthyStr : Option String → Bool
  | some s => s ≠ ""
  | none => false

def apos : String := String.singleton (Char.ofNat 39)

def MSG_DIDNT_UNDERSTAND : String :=
  "I didn" ++ apos ++ "t quite understand that. Could you please rephrase your query?"

def MSG_MORE_DETAILS : String :=
  "Could you please specify more details, such as crime type, location, or time period?"

def MSG_MULTIPLE_CRIMES (l : List String) : String :=
  "I detected multiple crime types: " ++ String.intercalate ", " l ++
  ". Which one would you like to search for?"

def MSG_TIME_PERIOD : String :=
  "What time period would you like to search? For example: this month, last week, or a specific date?"

def MSG_LOCATION : String := "Which location or sector would you like to search?"

def MSG_FALLBACK : String :=
  "Could you please provide more specific details for your search?"

def generateClarificationQuestion (intent : CommandIntent) (e : CommandEntities) : String :=
  if intent = CommandIntent.unknown then MSG_DIDNT_UNDERSTAND
  else if !e.crimeType.isSome && !truthyStr e.location && !e.timeRange.isSome then
    MSG_MORE_DETAILS
  else if 1 < (e.crimeType.getD []).length then
    MSG_MULTIPLE_CRIMES (e.crimeType.getD [])
  else if !e.timeRange.isSome then MSG_TIME_PERIOD
  else if !truthyStr e.location then MSG_LOCATION
  else MSG_FALLBACK

/-! ## The interpreter -/

def parseVoiceCommand (t : String) : ParsedCommand :=
  let l := normalizeText t
  let intent := determineIntent l
  let entities := extractEntities l
  let confidence := calculateConfidence intent entities l
  let needs : Bool := decide (confidence < 7/10)
  { intent := intent,
    entities := entities,
    confidence := confidence,
    rawText := t,
    needsClarification := needs,
    clarificationQuestion :=
      if needs then some (generateClarificationQuestion intent entities) else none }

/-! ## Summary formatting -/

def formatCommandSummary (p : ParsedCommand) : String :=
  let parts : List String :=
    (match p.entities.crimeType with
     | some tys =>
       if tys.length > 0 then ["Crime: " ++ String.intercalate ", " tys] else []
     | none => []) ++
    (match p.entities.location with
     | some s => if s ≠ "" then ["Location: " ++ s] else []
     | none => []) ++
    (match p.entities.timeRange with
     | some tr =>
       match tr.relative with
       | some r => if r ≠ "" then ["Time: " ++ r] else []
       | none => []
     | none => []) ++
    (match p.entities.suspect with
     | some s => if s ≠ "" then ["Suspect: " ++ s] else []
     | none => []) ++
    (match p.entities.caseId with
     | some s => if s ≠ "" then ["Case ID: " ++ s] else []
     | none => [])
  if parts.length > 0 then String.intercalate " | " parts else "General search"


/-! ## Claim-side presentation of the summary (from the spec wording):
exactly the present fields, fixed labels, fixed order, pipe-joined,
"General search" when none of the five is present. -/

def summaryFields (e : CommandEntities) : List String :=
  (e.crimeType.map (fun tys => "Crime: " ++ String.intercalate ", " tys)).toList ++
  (e.location.map (fun s => "Location: " ++ s)).toList ++
  ((e.timeRange.bind TimeRange.relative).map (fun r => "Time: " ++ r)).toList ++
  (e.suspect.map (fun s => "Suspect: " ++ s)).toList ++
  (e.caseId.map (fun s => "Case ID: " ++ s)).toList

def specSummary (p : ParsedCommand) : String :=
  if summaryFields p.entities = [] then "General search"
  else String.intercalate " | " (summaryFields p.entities)

/-- Validity of an entity bag per the data model of the spec: an absent
field means "not detected", never an empty string or empty list. -/
def ValidEntities (e : CommandEntities) : Prop :=
  e.crimeType ≠ some [] ∧ e.location ≠ some "" ∧ e.suspect ≠ some "" ∧
  e.caseId ≠ some "" ∧ e.timeRange.bind TimeRange.relative ≠ some ""

/-! ## Basic lemmas about the embedding -/

theorem orO_none_left {α : Type} (b : Option α) : orO none b = b := rfl

theorem orO_isSome_left {α : Type} {a : Option α} (b : Option α)
    (h : a.isSome = true) : (orO a b).isSome = true := by
  cases a with
  | none => simp at h
  | some x => rfl

theorem orO_isSome_right {α : Type} (a : Option α) {b : Option α}
    (h : b.isSome = true) : (orO a b).isSome = true := by
  cases a with
  | none => exact h
  | some x => rfl

/-- The boolean substring test agrees with `List.IsInfix`. -/
theorem textIncludes_iff {l needle : Text} :
    textIncludes l needle = true ↔ needle <:+: l := by
  induction l with
  | nil =>
    simp [textIncludes, List.isPrefixOf_iff_prefix, List.prefix_nil, List.infix_nil]
  | cons c rest ih =>
    simp [textIncludes, List.isPrefixOf_iff_prefix, List.infix_cons_iff, ih, or_comm]

theorem textIncludes_eq_decide (l needle : Text) :
    textIncludes l needle = decide (needle <:+: l) := by
  by_cases h : needle <:+: l
  · simp [h, textIncludes_iff.mpr h]
  · have hf : textIncludes l needle = false := by
      rw [Bool.eq_false_iff]
      intro hc
      exact absurd (textIncludes_iff.mp hc) h
    simp [hf, h]

theorem jsMin_nonneg {a b : ℚ} (ha : 0 ≤ a) (hb : 0 ≤ b) : 0 ≤ jsMin a b := by
  unfold jsMin; split <;> assumption

theorem jsMin_le_right (a b : ℚ) : jsMin a b ≤ b := by
  unfold jsMin; split
  · assumption
  · exact le_refl b

theorem calculateConfidence_nonneg (i : CommandIntent) (e : CommandEntities)
    (l : Text) : 0 ≤ calculateConfidence i e l := by
  unfold calculateConfidence
  apply jsMin_nonneg _ zero_le_one
  have h1 : (0:ℚ) ≤ (if i ≠ CommandIntent.unknown then 3/10 else 0) := by
    split <;> norm_num
  have h2 : (0:ℚ) ≤ jsMin ((entityCount e : ℚ) * (2/10)) (4/10) := by
    apply jsMin_nonneg <;> positivity
  have h3 : (0:ℚ) ≤ (if (splitWs l).length ≥ 4 then 2/10 else 0) +
      (if (splitWs l).length ≥ 8 then 1/10 else 0) := by
    apply add_nonneg <;> (split <;> norm_num)
  linarith

theorem calculateConfidence_le_one (i : CommandIntent) (e : CommandEntities)
    (l : Text) : calculateConfidence i e l ≤ 1 := by
  unfold calculateConfidence
  exact jsMin_le_right _ 1

/-- Claim C1: for every input string, `parseVoiceCommand` returns a
confidence in the closed interval `[0, 1]`; `needsClarification` is true
iff the confidence is below `0.7`; and `clarificationQuestion` is
defined iff `needsClarification` is true. -/
theorem C1_confidence_invariants (t : String) :
    0 ≤ (parseVoiceCommand t).confidence ∧
    (parseVoiceCommand t).confidence ≤ 1 ∧
    ((parseVoiceCommand t).needsClarification = true ↔
      (parseVoiceCommand t).confidence < 7/10) ∧
    ((parseVoiceCommand t).clarificationQuestion.isSome =
      (parseVoiceCommand t).needsClarification) := by
  refine ⟨?_, ?_, ?_, ?_⟩
  · exact calculateConfidence_nonneg _ _ _
  · exact calculateConfidence_le_one _ _ _
  · simp [parseVoiceCommand]
  · by_cases h : calculateConfidence (determineIntent (normalizeText t))
        (extractEntities (normalizeText t)) (normalizeText t) < 7/10 <;>
      simp [parseVoiceCommand, h]

/-- Claim C2 is false as stated: on the input
"show me all armed robberies this month" no phrase of the crime-type
vocabulary occurs as a substring (the plural "robberies" does not
contain "robbery"), so the intent is not `crime_type_query` and no
`entities.crimeType` list is produced. -/
theorem C2_counterexample :
    (parseVoiceCommand "show me all armed robberies this month").intent ≠
      CommandIntent.crime_type_query ∧
    (parseVoiceCommand "show me all armed robberies this month").entities.crimeType =
      none := by
  decide


/-- The confidence field of the parse result, written out as the score
formula (definitional unfolding). -/
theorem conf_formula (t : String) :
    (parseVoiceCommand t).confidence =
      jsMin ((if determineIntent (normalizeText t) ≠ CommandIntent.unknown then (3:ℚ)/10 else 0) +
        jsMin ((entityCount (extractEntities (normalizeText t)) : ℚ) * (2/10)) (4/10) +
        ((if (splitWs (normalizeText t)).length ≥ 4 then (2:ℚ)/10 else 0) +
         (if (splitWs (normalizeText t)).length ≥ 8 then (1:ℚ)/10 else 0))) 1 := rfl

theorem needs_formula (t : String) :
    (parseVoiceCommand t).needsClarification =
      decide ((parseVoiceCommand t).confidence < 7/10) := rfl

theorem question_formula (t : String) :
    (parseVoiceCommand t).clarificationQuestion =
      (if (parseVoiceCommand t).needsClarification then
        some (generateClarificationQuestion (determineIntent (normalizeText t))
          (extractEntities (normalizeText t)))
       else none) := rfl

theorem confArmedRobberies :
    (parseVoiceCommand "show me all armed robberies this month").confidence = 9/10 := by
  rw [conf_formula,
    show determineIntent (normalizeText "show me all armed robberies this month") =
      CommandIntent.temporal_query from by decide,
    show entityCount (extractEntities
      (normalizeText "show me all armed robberies this month")) = 2 from by decide,
    show (splitWs (normalizeText "show me all armed robberies this month")).length = 7
      from by decide]
  rw [if_pos (show CommandIntent.temporal_query ≠ CommandIntent.unknown from by decide)]
  norm_num [jsMin]

theorem confShowRobberyBurglary :
    (parseVoiceCommand "show robbery and burglary cases").confidence = 9/10 := by
  rw [conf_formula,
    show determineIntent (normalizeText "show robbery and burglary cases") =
      CommandIntent.crime_type_query from by decide,
    show entityCount (extractEntities
      (normalizeText "show robbery and burglary cases")) = 2 from by decide,
    show (splitWs (normalizeText "show robbery and burglary cases")).length = 5
      from by decide]
  rw [if_pos (show CommandIntent.crime_type_query ≠ CommandIntent.unknown from by decide)]
  norm_num [jsMin]

theorem confEmptyString : (parseVoiceCommand "").confidence = 0 := by
  rw [conf_formula,
    show determineIntent (normalizeText "") = CommandIntent.unknown from by decide,
    show entityCount (extractEntities (normalizeText "")) = 0 from by decide,
    show (splitWs (normalizeText "")).length = 1 from by decide]
  rw [if_neg (show ¬(CommandIntent.unknown ≠ CommandIntent.unknown) from by decide)]
  norm_num [jsMin]

/-- Claim C2 amended: for the input
"show me all armed robberies this month", `parseVoiceCommand` returns
intent `temporal_query` (no crime-type phrase matches the plural
"robberies", so the "show" branch falls through to the temporal check),
`entities.crimeType` absent, `entities.timeRange.relative` = "this
month" with the 30-day window, confidence `0.9 ≥ 0.7`, and
`needsClarification` false. -/
theorem C2_amended :
    (parseVoiceCommand "show me all armed robberies this month").intent =
      CommandIntent.temporal_query ∧
    (parseVoiceCommand "show me all armed robberies this month").entities.crimeType =
      none ∧
    (parseVoiceCommand "show me all armed robberies this month").entities.timeRange =
      some { start := some (DateVal.relToNow 30), «end» := some (DateVal.relToNow 0),
             relative := some "this month" } ∧
    (parseVoiceCommand "show me all armed robberies this month").confidence = 9/10 ∧
    7/10 ≤ (parseVoiceCommand "show me all armed robberies this month").confidence ∧
    (parseVoiceCommand "show me all armed robberies this month").needsClarification =
      false := by
  refine ⟨by decide, by decide, by decide, confArmedRobberies, ?_, ?_⟩
  · rw [confArmedRobberies]
    norm_num
  · rw [needs_formula, confArmedRobberies]
    simp only [decide_eq_false_iff_not]
    norm_num

/-- Claim C3 is false as stated: on
"find cases near sector 9 from last week" the first location pattern
`(?:in|near|at|around)\s+([a-z0-9\s]+?)(?:\s|$)` already matches at
"near sector …" with the non-greedy capture stopping at the space after
"sector", so `entities.location` is "sector", not "9"; the
`sector (\d+)` pattern is never consulted. -/
theorem C3_counterexample :
    (parseVoiceCommand "find cases near sector 9 from last week").entities.location ≠
      some "9" := by
  decide

/-- Claim C3 amended: for the input
"find cases near sector 9 from last week", `parseVoiceCommand` returns
intent `location_query`, `entities.location` = "sector" (captured by the
preposition pattern, whose non-greedy character class stops at the first
space; the `sector (\d+)` pattern is never reached), and
`entities.timeRange.relative` = "last week". -/
theorem C3_amended :
    (parseVoiceCommand "find cases near sector 9 from last week").intent =
      CommandIntent.location_query ∧
    (parseVoiceCommand "find cases near sector 9 from last week").entities.location =
      some "sector" ∧
    (parseVoiceCommand "find cases near sector 9 from last week").entities.timeRange =
      some { start := some (DateVal.relToNow 14), «end» := some (DateVal.relToNow 7),
             relative := some "last week" } := by
  decide

/-- Claim C6 is false as stated: on "show robbery and burglary cases"
the confidence is `0.3 + 0.4 + 0.2 = 0.9 ≥ 0.7` (intent known, two
entity fields, five words), so clarification does not fire at all. -/
theorem C6_counterexample :
    (parseVoiceCommand "show robbery and burglary cases").needsClarification =
      false := by
  rw [needs_formula, confShowRobberyBurglary]
  simp only [decide_eq_false_iff_not]
  norm_num

/-- Claim C6 amended: for the input "show robbery and burglary cases",
`entities.crimeType` = ["robbery", "burglary"] in vocabulary order, but
the confidence is `0.9 ≥ 0.7`, so `needsClarification` is false and no
clarification question (in particular not the multiple-crime-types one)
is produced. -/
theorem C6_amended :
    (parseVoiceCommand "show robbery and burglary cases").entities.crimeType =
      some ["robbery", "burglary"] ∧
    (parseVoiceCommand "show robbery and burglary cases").confidence = 9/10 ∧
    (parseVoiceCommand "show robbery and burglary cases").needsClarification = false ∧
    (parseVoiceCommand "show robbery and burglary cases").clarificationQuestion =
      none := by
  have hN : (parseVoiceCommand "show robbery and burglary cases").needsClarification =
      false := by
    rw [needs_formula, confShowRobberyBurglary]
    simp only [decide_eq_false_iff_not]
    norm_num
  refine ⟨by decide, confShowRobberyBurglary, hN, ?_⟩
  rw [question_formula, hN]
  simp

/-- Claim C7: `parseVoiceCommand` is total by construction (it is a Lean
function defined on every string, and it always reports the raw input
back in `rawText`); on the empty string it returns intent `unknown`, an
entity bag with no fields present, confidence exactly 0,
`needsClarification` true, and the "didn't understand, please rephrase"
clarification message. -/
theorem C7_total_empty :
    (∀ t : String, (parseVoiceCommand t).rawText = t) ∧
    (parseVoiceCommand "").intent = CommandIntent.unknown ∧
    (parseVoiceCommand "").entities = {} ∧
    (parseVoiceCommand "").confidence = 0 ∧
    (parseVoiceCommand "").needsClarification = true ∧
    (parseVoiceCommand "").clarificationQuestion = some MSG_DIDNT_UNDERSTAND := by
  have hN : (parseVoiceCommand "").needsClarification = true := by
    rw [needs_formula, confEmptyString]
    simp only [decide_eq_true_eq]
    norm_num
  refine ⟨fun t => rfl, by decide, by decide, confEmptyString, hN, ?_⟩
  rw [question_formula, hN]
  simp
  decide

/-- Claim C8 is false as stated: literal substring semantics makes the
cue fire, since "in " does occur inside "within " — the example text
"cases within downtown" IS classified as `location_query`. -/
theorem C8_counterexample :
    (parseVoiceCommand "cases within downtown").intent =
      CommandIntent.location_query := by
  decide

/-- Claim C8 amended: the word "within" DOES trigger the location cue,
because the cue is a literal substring test and "in " occurs inside
"within "; in particular "cases within downtown" is classified as
`location_query`. -/
theorem C8_amended :
    (∀ l : Text, "within ".toList <:+: l → containsLocation l = true) ∧
    (parseVoiceCommand "cases within downtown").intent =
      CommandIntent.location_query := by
  constructor
  · intro l h
    have hsub : "in ".toList <:+: "within ".toList := by decide
    have hin : "in ".toList <:+: l := hsub.trans h
    unfold containsLocation
    rw [textIncludes_eq_decide l ("in ".toList)]
    simp only [Bool.or_eq_true, decide_eq_true_eq]
    exact Or.inl (Or.inl (Or.inl (Or.inl (Or.inl hin))))
  · decide

theorem C8_witness :
    containsLocation ("cases within downtown".toList) = true :=
  C8_amended.1 ("cases within downtown".toList) (by decide)

/-- Claim C4: for every input, `entities.crimeType`, when present, is
exactly the sublist of the 13-phrase vocabulary, in vocabulary order,
of the phrases occurring as substrings of the normalized text (it is
absent exactly when that sublist is empty); there is no deduplication
or subsumption — any text containing "armed robbery" yields both
"armed robbery" and "robbery" as entries. -/
theorem C4_crime_types (t : String) :
    ((parseVoiceCommand t).entities.crimeType =
      (if (CRIME_TYPES.filter (fun ty => decide (ty.toList <:+: normalizeText t))).length > 0
       then some (CRIME_TYPES.filter (fun ty => decide (ty.toList <:+: normalizeText t)))
       else none)) ∧
    ("armed robbery".toList <:+: normalizeText t →
      ∃ tys, (parseVoiceCommand t).entities.crimeType = some tys ∧
        "armed robbery" ∈ tys ∧ "robbery" ∈ tys) := by
  have hfilter : CRIME_TYPES.filter (fun ty => textIncludes (normalizeText t) ty.toList) =
      CRIME_TYPES.filter (fun ty => decide (ty.toList <:+: normalizeText t)) := by
    apply List.filter_congr
    intro ty _
    exact textIncludes_eq_decide _ _
  constructor
  · show (if (CRIME_TYPES.filter (fun ty => textIncludes (normalizeText t) ty.toList)).length > 0
          then some (CRIME_TYPES.filter (fun ty => textIncludes (normalizeText t) ty.toList))
          else none) =
        (if (CRIME_TYPES.filter (fun ty => decide (ty.toList <:+: normalizeText t))).length > 0
         then some (CRIME_TYPES.filter (fun ty => decide (ty.toList <:+: normalizeText t)))
         else none)
    rw [hfilter]
  · intro h
    have hmem1 : "armed robbery" ∈
        CRIME_TYPES.filter (fun ty => textIncludes (normalizeText t) ty.toList) :=
      List.mem_filter.mpr ⟨by decide, textIncludes_iff.mpr h⟩
    have hrob : "robbery".toList <:+: normalizeText t := by
      have hsub : "robbery".toList <:+: "armed robbery".toList := by decide
      exact hsub.trans h
    have hmem2 : "robbery" ∈
        CRIME_TYPES.filter (fun ty => textIncludes (normalizeText t) ty.toList) :=
      List.mem_filter.mpr ⟨by decide, textIncludes_iff.mpr hrob⟩
    have hlen : (CRIME_TYPES.filter (fun ty => textIncludes (normalizeText t) ty.toList)).length > 0 :=
      List.length_pos.mpr (List.ne_nil_of_mem hmem1)
    refine ⟨CRIME_TYPES.filter (fun ty => textIncludes (normalizeText t) ty.toList), ?_, hmem1, hmem2⟩
    show (if (CRIME_TYPES.filter (fun ty => textIncludes (normalizeText t) ty.toList)).length > 0
          then some (CRIME_TYPES.filter (fun ty => textIncludes (normalizeText t) ty.toList))
          else none) = _
    rw [if_pos hlen]

theorem C4_witness :
    ∃ tys, (parseVoiceCommand "armed robbery").entities.crimeType = some tys ∧
      "armed robbery" ∈ tys ∧ "robbery" ∈ tys :=
  (C4_crime_types "armed robbery").2 (by decide)

/-- Claim C5: time-range extraction walks the temporal table in declared
order, stopping at the first keyword occurring as a substring of the
text, and returns relative = that keyword with the window
`[now − days, now − offset]` (`now` itself when no offset); in
particular any text containing "last week" but none of the earlier
keywords "today", "yesterday", "this week" yields the window from
`now − 14` days to `now − 7` days.  If no keyword matches, a leftmost
`MM/DD/YYYY`-shaped match yields `start = end = that date` with no
relative field, and otherwise the extraction yields nothing. -/
theorem C5_time_range (l : Text) :
    (extractTimeRange l =
      (match TEMPORAL_KEYWORDS.find? (fun kv => decide (kv.1.toList <:+: l)) with
       | some kv =>
         some { start := some (DateVal.relToNow kv.2.days),
                «end» := some (DateVal.relToNow (kv.2.offset.getD 0)),
                relative := some kv.1 }
       | none =>
         match dateSearch l with
         | some d =>
           some { start := some (DateVal.ofParsedString (String.mk d)),
                  «end» := some (DateVal.ofParsedString (String.mk d)),
                  relative := none }
         | none => none)) ∧
    (("last week".toList <:+: l ∧ ¬("today".toList <:+: l) ∧
      ¬("yesterday".toList <:+: l) ∧ ¬("this week".toList <:+: l)) →
      extractTimeRange l =
        some { start := some (DateVal.relToNow 14), «end» := some (DateVal.relToNow 7),
               relative := some "last week" }) := by
  have hft : ∀ (kvs : List (String × TemporalValue)),
      findTemporal kvs l = kvs.find? (fun kv => decide (kv.1.toList <:+: l)) := by
    intro kvs
    induction kvs with
    | nil => rfl
    | cons kv rest ih =>
      simp only [findTemporal, List.find?_cons, textIncludes_eq_decide]
      cases hd : decide (kv.1.toList <:+: l) with
      | true => simp [hd]
      | false => simp [hd, ih]
  constructor
  · unfold extractTimeRange
    rw [hft TEMPORAL_KEYWORDS]
    cases hX : TEMPORAL_KEYWORDS.find? (fun kv => decide (kv.1.toList <:+: l)) with
    | none => rfl
    | some kv =>
      obtain ⟨k, v⟩ := kv
      rfl
  · rintro ⟨h1, h2, h3, h4⟩
    have ht2 : textIncludes l ("today".toList) = false := by
      rw [textIncludes_eq_decide]
      exact decide_eq_false h2
    have ht3 : textIncludes l ("yesterday".toList) = false := by
      rw [textIncludes_eq_decide]
      exact decide_eq_false h3
    have ht4 : textIncludes l ("this week".toList) = false := by
      rw [textIncludes_eq_decide]
      exact decide_eq_false h4
    have ht1 : textIncludes l ("last week".toList) = true := textIncludes_iff.mpr h1
    have hfind : findTemporal TEMPORAL_KEYWORDS l =
        some ("last week", ⟨14, some 7⟩) := by
      simp only [TEMPORAL_KEYWORDS, findTemporal, ht1, ht2, ht3, ht4,
        Bool.false_eq_true, if_false, if_true]
    unfold extractTimeRange
    rw [hfind]
    rfl

theorem C5_witness :
    extractTimeRange ("last week".toList) =
      some { start := some (DateVal.relToNow 14), «end» := some (DateVal.relToNow 7),
             relative := some "last week" } :=
  (C5_time_range ("last week".toList)).2 ⟨by decide, by decide, by decide, by decide⟩

/-! ## Lemmas for the case-id claim -/

theorem caseIdChar_not_ws {c : Char} (h : isCaseIdChar c = true) :
    isWsChar c = false := by
  cases hw : isWsChar c with
  | false => rfl
  | true =>
    exfalso
    have hcc : c = ' ' ∨ c = '\t' ∨ c = '\n' ∨ c = '\r' ∨ c = '\x0b' ∨ c = '\x0c' := by
      simp only [isWsChar, Bool.or_eq_true, decide_eq_true_eq, or_assoc] at hw
      exact hw
    rcases hcc with h1 | h1 | h1 | h1 | h1 | h1 <;> rw [h1] at h <;>
      exact absurd h (by decide)

theorem wsThen_cons_ws {α : Type} (k : Text → Option α) (w d : Char) (r : Text)
    (hw : isWsChar w = true) (hd : isWsChar d = true) :
    wsThen k (w :: d :: r) = orO (wsThen k (d :: r)) (k (d :: r)) := by
  simp only [wsThen, hw, hd, if_true]

theorem caseSearch_isSome_of_suffix (a s : Text)
    (h : (caseMatchAt s).isSome = true) :
    (caseSearch (a ++ s)).isSome = true := by
  induction a with
  | nil =>
    cases s with
    | nil => exact h
    | cons c rest =>
      show (scanText caseMatchAt (c :: rest)).isSome = true
      simp only [scanText]
      exact orO_isSome_left _ h
  | cons x a' ih =>
    show (scanText caseMatchAt (x :: (a' ++ s))).isSome = true
    simp only [scanText]
    exact orO_isSome_right _ ih

theorem wsThen_isSome_append {α : Type} (k : Text → Option α) (ws : Text)
    (c : Char) (rest : Text) (hws : ws ≠ [])
    (hall : ∀ x ∈ ws, isWsChar x = true) (hc : isWsChar c = false)
    (hk : (k (c :: rest)).isSome = true) :
    (wsThen k (ws ++ c :: rest)).isSome = true := by
  induction ws with
  | nil => exact absurd rfl hws
  | cons w ws' ih =>
    have hw : isWsChar w = true := hall w (by simp)
    cases ws' with
    | nil =>
      show (wsThen k (w :: c :: rest)).isSome = true
      simp only [wsThen, hw, if_true, hc, Bool.false_eq_true, if_false]
      exact orO_isSome_right _ hk
    | cons w2 ws'' =>
      have hw2 : isWsChar w2 = true := hall w2 (by simp)
      have ih' : (wsThen k ((w2 :: ws'') ++ c :: rest)).isSome = true :=
        ih (by simp) (fun x hx => hall x (List.mem_cons_of_mem w hx))
      show (wsThen k (w :: w2 :: (ws'' ++ c :: rest))).isSome = true
      rw [wsThen_cons_ws k w w2 (ws'' ++ c :: rest) hw hw2]
      exact orO_isSome_left _ ih'

theorem caseTail_isSome (ws : Text) (c : Char) (rest : Text) (hws : ws ≠ [])
    (hall : ∀ x ∈ ws, isWsChar x = true) (hc : isCaseIdChar c = true) :
    (caseTail (ws ++ c :: rest)).isSome = true := by
  unfold caseTail
  apply wsThen_isSome_append _ ws c rest hws hall (caseIdChar_not_ws hc)
  apply orO_isSome_right
  simp [greedyCapture, hc]

theorem caseMatchAt_isSome (ws : Text) (c : Char) (rest : Text) (hws : ws ≠ [])
    (hall : ∀ x ∈ ws, isWsChar x = true) (hc : isCaseIdChar c = true) :
    (caseMatchAt ("case".toList ++ (ws ++ c :: rest))).isSome = true := by
  unfold caseMatchAt
  rw [if_pos (List.isPrefixOf_iff_prefix.mpr (List.prefix_append _ _))]
  have hdrop : (("case".toList ++ (ws ++ c :: rest)).drop 4) = ws ++ c :: rest := rfl
  rw [hdrop]
  exact caseTail_isSome ws c rest hws hall hc

/-- Claim C10: for every input whose normalized text contains "case"
followed by whitespace and a character of the case-id class
(letters/digits/hyphens), `parseVoiceCommand` populates
`entities.caseId` — even when the text contains no actual case
identifier; in particular "show me the case from yesterday" yields
caseId = "from" (the optional literal "id " is skipped, and the text is
already lowercased). -/
theorem C10_case_id :
    (∀ (t : String) (a ws : Text) (c : Char) (rest : Text),
      normalizeText t = a ++ ("case".toList ++ (ws ++ c :: rest)) →
      ws ≠ [] → (∀ x ∈ ws, isWsChar x = true) → isCaseIdChar c = true →
      (parseVoiceCommand t).entities.caseId.isSome = true) ∧
    (parseVoiceCommand "show me the case from yesterday").entities.caseId =
      some "from" := by
  constructor
  · intro t a ws c rest heq hws hall hc
    have h1 : (caseSearch (normalizeText t)).isSome = true := by
      rw [heq]
      exact caseSearch_isSome_of_suffix a _ (caseMatchAt_isSome ws c rest hws hall hc)
    obtain ⟨v, hv⟩ := Option.isSome_iff_exists.mp h1
    show ((caseSearch (normalizeText t)).map String.mk).isSome = true
    rw [hv]
    rfl
  · decide

theorem C10_witness :
    (parseVoiceCommand "case 7").entities.caseId.isSome = true :=
  C10_case_id.1 "case 7" [] [' '] '7' [] (by decide) (by decide) (by decide)
    (by decide)

/-- Claim C9: `formatCommandSummary` is total (a Lean function on every
`ParsedCommand`), and for every valid `ParsedCommand` (per the data
model: an absent field means "not detected", never an empty string or
empty list) it produces exactly the pipe-joined, fixed-order,
fixed-label rendering of the present fields among crime types,
location, time-range relative label, suspect, and case id — falling
back to "General search" when none of those five is present, even if
keywords are. -/
theorem C9_format_summary (p : ParsedCommand) (h : ValidEntities p.entities) :
    formatCommandSummary p = specSummary p := by
  obtain ⟨h1, h2, h3, h4, h5⟩ := h
  have e1 : (match p.entities.crimeType with
             | some tys =>
               if tys.length > 0 then ["Crime: " ++ String.intercalate ", " tys] else []
             | none => []) =
      (p.entities.crimeType.map (fun tys => "Crime: " ++ String.intercalate ", " tys)).toList := by
    rcases hct : p.entities.crimeType with _ | tys
    · rfl
    · have hne : tys ≠ [] := by
        rintro rfl
        exact h1 hct
      simp [List.length_pos.mpr hne]
  have e2 : (match p.entities.location with
             | some s => if s ≠ "" then ["Location: " ++ s] else []
             | none => []) =
      (p.entities.location.map (fun s => "Location: " ++ s)).toList := by
    rcases hloc : p.entities.location with _ | s
    · rfl
    · have hne : s ≠ "" := by
        rintro rfl
        exact h2 hloc
      simp [hne]
  have e3 : (match p.entities.timeRange with
             | some tr =>
               match tr.relative with
               | some r => if r ≠ "" then ["Time: " ++ r] else []
               | none => []
             | none => []) =
      ((p.entities.timeRange.bind TimeRange.relative).map (fun r => "Time: " ++ r)).toList := by
    rcases htr : p.entities.timeRange with _ | tr
    · rfl
    · rcases hrel : tr.relative with _ | r
      · simp [Option.bind, hrel]
      · have hne : r ≠ "" := by
          rintro rfl
          apply h5
          rw [htr]
          simpa [Option.bind] using hrel
        simp [Option.bind, hrel, hne]
  have e4 : (match p.entities.suspect with
             | some s => if s ≠ "" then ["Suspect: " ++ s] else []
             | none => []) =
      (p.entities.suspect.map (fun s => "Suspect: " ++ s)).toList := by
    rcases hsus : p.entities.suspect with _ | s
    · rfl
    · have hne : s ≠ "" := by
        rintro rfl
        exact h3 hsus
      simp [hne]
  have e5 : (match p.entities.caseId with
             | some s => if s ≠ "" then ["Case ID: " ++ s] else []
             | none => []) =
      (p.entities.caseId.map (fun s => "Case ID: " ++ s)).toList := by
    rcases hcid : p.entities.caseId with _ | s
    · rfl
    · have hne : s ≠ "" := by
        rintro rfl
        exact h4 hcid
      simp [hne]
  unfold formatCommandSummary specSummary
  rw [e1, e2, e3, e4, e5]
  rw [show ((p.entities.crimeType.map
      (fun tys => "Crime: " ++ String.intercalate ", " tys)).toList ++
      (p.entities.location.map (fun s => "Location: " ++ s)).toList ++
      ((p.entities.timeRange.bind TimeRange.relative).map (fun r => "Time: " ++ r)).toList ++
      (p.entities.suspect.map (fun s => "Suspect: " ++ s)).toList ++
      (p.entities.caseId.map (fun s => "Case ID: " ++ s)).toList) =
    summaryFields p.entities from rfl]
  by_cases hsf : summaryFields p.entities = []
  · rw [if_pos hsf, hsf]
    simp
  · rw [if_neg hsf, if_pos (List.length_pos.mpr hsf)]

theorem C9_witness :
    formatCommandSummary
      { intent := CommandIntent.crime_type_query,
        entities := { crimeType := some ["robbery"], location := some "sector" },
        confidence := 1, rawText := "robbery in sector", needsClarification := false,
        clarificationQuestion := none } =
    specSummary
      { intent := CommandIntent.crime_type_query,
        entities := { crimeType := some ["robbery"], location := some "sector" },
        confidence := 1, rawText := "robbery in sector", needsClarification := false,
        clarificationQuestion := none } :=
  C9_format_summary _ ⟨by decide, by decide, by decide, by decide, by decide⟩
